import Mathlib

/-!
Shallow embedding of `src/bin/neo4j-client.c` (the `main` function of the
neo4j-client shell): option processing, post-parse validation, connection
setup and execution-mode selection.  Pure data is modelled directly; the
external collaborators (connection layer, renderer, REPL, batch evaluator,
source pipeline internals) appear only through boolean oracles carried in
an `Env` record, matching the behaviour `main` observes from them (their
return codes).
-/

namespace Neo4jClient

/-- Colorization policy of the error stream.  `initDefault` is the value
left by `shell_state_init` (that function is outside the sources; the spec
describes the policy as tri-state force-on / force-off / auto-by-tty). -/
inductive ErrorColorization where
  | ansi
  | noColor
  | initDefault
deriving DecidableEq, Repr

/-- Render strategy chosen at mode entry (`render_results_table` or
`render_results_csv` in the C code); `none` until a mode sets it. -/
inductive RenderKind where
  | table
  | csv
deriving DecidableEq, Repr

/-- The slice of `neo4j_config_t` that `main` mutates through the
`neo4j_config_set_*` calls.  `none` for an unset/NULL field means the
connection layer's own default applies.  `max_pipelined_requests = none`
means the library default was never overridden. -/
structure Config where
  username : Option String := none
  password : Option String := none
  ca_file : Option String := none
  ca_dir : Option String := none
  known_hosts : Option String := none
  trust_known_hosts : Bool := true
  max_pipelined_requests : Option Nat := none
deriving DecidableEq, Repr

/-- The fields of `shell_state_t` that `main` reads or writes.
`shell_state_init` is outside the sources; its defaults are modelled from
the spec (§3 ShellState: depth starts at 0, prompt flag off, render chosen
by mode). -/
structure ShellState where
  interactive : Bool := false
  histfile : Option String := none
  error_colorize : ErrorColorization := ErrorColorization.initDefault
  connect_flags_insecure : Bool := false
  password_prompt : Bool := false
  pipeline_max : Option Nat := none
  source_max_depth : Option Nat := none
  config : Config := {}
  render : Option RenderKind := none
  render_flags_show_nulls : Bool := false
  infile : Option String := none
  source_depth : Nat := 0
deriving DecidableEq, Repr

/-- `struct file_io_request`: a queued `-i` (`is_input = true`) or `-o`
(`is_input = false`) argument. -/
structure file_io_request where
  filename : String
  is_input : Bool
deriving DecidableEq, Repr

/-- `NEO4J_MAX_FILE_IO_ARGS` in the C source. -/
def NEO4J_MAX_FILE_IO_ARGS : Nat := 128

/-- `NEO4J_LOG_WARN`: the numeric level from the library header (outside
the sources); the spec only says verbosity is an integer incremented per
`-v`, so the concrete base value is irrelevant to every claim. -/
def NEO4J_LOG_WARN : Nat := 1

/-- Diagnostics `main` prints to the error stream before bailing out. -/
inductive Diag where
  | usageErr
  | cannotPromptNoTty
  | invalidPipelineMax (arg : String)
  | invalidSourceMaxDepth (arg : String)
  | tooManyFileIoArgs
  | danglingOutput
  | connectError
deriving DecidableEq, Repr

/-- One recognized token from the `getopt_long` loop: each constructor is
one `case` label of the `switch` in `main`, carrying `optarg` where the
option takes an argument.  `unrecognized` is the `default:` case. -/
inductive Opt where
  | help
  | verbose
  | histfileOpt (arg : String)
  | caFile (arg : String)
  | caDir (arg : String)
  | colorize
  | noColorize
  | insecure
  | nonInteractive
  | username (arg : String)
  | password (arg : String)
  | promptPasswd
  | knownHosts (arg : String)
  | noKnownHosts
  | nohist
  | pipelineMax (arg : String)
  | sourceOpt (arg : String)
  | sourceMaxDepth (arg : String)
  | output (arg : String)
  | version
  | unrecognized
deriving DecidableEq, Repr

/-- The process environment `main` observes, plus oracles for the return
codes of the external collaborators (`db_connect`, `interact`, `batch`,
`redirect_output`, `source`). -/
structure Env where
  stdinIsTTY : Bool
  stderrIsTTY : Bool
  ttyOpens : Bool
  connectOk : Bool
  interactOk : Bool
  batchOk : Bool
  redirectOk : String → Bool
  sourceOk : String → Bool

/-- C `atoi` digit accumulation: consume leading decimal digits, stop at
the first non-digit. -/
def atoiDigits : List Char → Nat → Nat
  | [], acc => acc
  | c :: cs, acc =>
      if c.isDigit then atoiDigits cs (acc * 10 + (c.toNat - 48)) else acc

/-- C `isspace` for the default locale. -/
def isCSpace (c : Char) : Bool :=
  c = ' ' ∨ c = '\t' ∨ c = '\n' ∨ c = '\x0b' ∨ c = '\x0c' ∨ c = '\r'

/-- C `atoi`: skip whitespace, optional sign, then a (possibly empty)
digit prefix; anything after the digits is ignored; no digits gives 0. -/
def atoi (s : String) : Int :=
  match s.toList.dropWhile isCSpace with
  | [] => 0
  | c :: cs =>
      if c = '-' then -(atoiDigits cs 0 : Int)
      else if c = '+' then (atoiDigits cs 0 : Int)
      else (atoiDigits (c :: cs) 0 : Int)

/-- The mutable context of the option loop: the shell state, the tty
handle (`true` while open), the log level, the queued file-io requests in
order, and the diagnostics printed so far. -/
structure LoopState where
  state : ShellState
  tty : Bool
  log_level : Nat
  reqs : List file_io_request
  diags : List Diag
deriving DecidableEq, Repr

/-- Outcome of one `switch` iteration: continue the loop, or `goto
cleanup` with `EXIT_SUCCESS` (`-h`, `--version`) or `EXIT_FAILURE`. -/
inductive ParseStep where
  | cont (ls : LoopState)
  | exitSuccess (diags : List Diag)
  | exitFailure (diags : List Diag)
deriving DecidableEq, Repr

/-- One iteration of the `getopt_long` switch in `main`
(src/bin/neo4j-client.c lines 184–326), translated case by case. -/
def processOpt (ls : LoopState) : Opt → ParseStep
  | Opt.help => ParseStep.exitSuccess ls.diags
  | Opt.verbose =>
      ParseStep.cont { ls with log_level := (ls.log_level + 1) % 256 }
  | Opt.histfileOpt a =>
      ParseStep.cont { ls with state :=
        { ls.state with histfile := if a ≠ "" then some a else none } }
  | Opt.caFile a =>
      ParseStep.cont { ls with state :=
        { ls.state with config := { ls.state.config with ca_file := some a } } }
  | Opt.caDir a =>
      ParseStep.cont { ls with state :=
        { ls.state with config := { ls.state.config with ca_dir := some a } } }
  | Opt.colorize =>
      ParseStep.cont { ls with state :=
        { ls.state with error_colorize := ErrorColorization.ansi } }
  | Opt.noColorize =>
      ParseStep.cont { ls with state :=
        { ls.state with error_colorize := ErrorColorization.noColor } }
  | Opt.insecure =>
      ParseStep.cont { ls with state :=
        { ls.state with connect_flags_insecure := true } }
  | Opt.nonInteractive =>
      ParseStep.cont { ls with
        state := { ls.state with interactive := false }, tty := false }
  | Opt.username a =>
      ParseStep.cont { ls with state :=
        { ls.state with config := { ls.state.config with username := some a } } }
  | Opt.password a =>
      ParseStep.cont { ls with state :=
        { ls.state with config := { ls.state.config with password := some a } } }
  | Opt.promptPasswd =>
      if ls.tty = false then
        ParseStep.exitFailure (ls.diags ++ [Diag.cannotPromptNoTty])
      else
        ParseStep.cont { ls with state :=
          { ls.state with password_prompt := true } }
  | Opt.knownHosts a =>
      ParseStep.cont { ls with state :=
        { ls.state with config :=
          { ls.state.config with known_hosts := some a } } }
  | Opt.noKnownHosts =>
      ParseStep.cont { ls with state :=
        { ls.state with config :=
          { ls.state.config with trust_known_hosts := false } } }
  | Opt.nohist =>
      ParseStep.cont { ls with state := { ls.state with histfile := none } }
  | Opt.pipelineMax a =>
      if atoi a < 1 then
        ParseStep.exitFailure (ls.diags ++ [Diag.invalidPipelineMax a])
      else
        ParseStep.cont { ls with state :=
          { ls.state with
            pipeline_max := some (atoi a).toNat,
            config := { ls.state.config with
              max_pipelined_requests := some ((atoi a).toNat * 2) } } }
  | Opt.sourceOpt a =>
      let ls1 : LoopState :=
        { ls with state := { ls.state with interactive := false } }
      if ls1.reqs.length ≥ NEO4J_MAX_FILE_IO_ARGS then
        ParseStep.exitFailure (ls1.diags ++ [Diag.tooManyFileIoArgs])
      else
        ParseStep.cont { ls1 with
          reqs := ls1.reqs ++ [{ filename := a, is_input := true }] }
  | Opt.sourceMaxDepth a =>
      if atoi a < 1 then
        ParseStep.exitFailure (ls.diags ++ [Diag.invalidSourceMaxDepth a])
      else
        ParseStep.cont { ls with state :=
          { ls.state with source_max_depth := some (atoi a).toNat } }
  | Opt.output a =>
      if ls.reqs.length ≥ NEO4J_MAX_FILE_IO_ARGS then
        ParseStep.exitFailure (ls.diags ++ [Diag.tooManyFileIoArgs])
      else
        ParseStep.cont { ls with
          reqs := ls.reqs ++ [{ filename := a, is_input := false }] }
  | Opt.version => ParseStep.exitSuccess ls.diags
  | Opt.unrecognized => ParseStep.exitFailure (ls.diags ++ [Diag.usageErr])

/-- Result of running the whole option loop. -/
inductive ParseResult where
  | earlyExit (success : Bool) (diags : List Diag)
  | parsed (ls : LoopState)
deriving DecidableEq, Repr

/-- The `while ((c = getopt_long(...)) >= 0)` loop over the recognized
option stream. -/
def runParse (ls : LoopState) : List Opt → ParseResult
  | [] => ParseResult.parsed ls
  | o :: rest =>
      match processOpt ls o with
      | ParseStep.cont ls2 => runParse ls2 rest
      | ParseStep.exitSuccess ds => ParseResult.earlyExit true ds
      | ParseStep.exitFailure ds => ParseResult.earlyExit false ds

/-- Default history-file path computed by `neo4j_dot_dir` with
`NEO4J_HISTORY_FILE` (the per-user dot-directory location; the exact
prefix is environment-derived and irrelevant to every claim). -/
def histfileDefault : String := "client-history"

/-- The loop state at the top of the option loop: `shell_state_init`
defaults, then `state.interactive = isatty(STDIN_FILENO)`, the default
histfile, and ANSI error colorization when stderr is a tty
(src/bin/neo4j-client.c lines 158–181). -/
def initState (env : Env) : LoopState :=
  { state :=
      { interactive := env.stdinIsTTY
        histfile := some histfileDefault
        error_colorize :=
          if env.stderrIsTTY then ErrorColorization.ansi
          else ErrorColorization.initDefault }
    tty := env.ttyOpens
    log_level := NEO4J_LOG_WARN
    reqs := []
    diags := [] }

/-- The three execution paths of `main` after the connection phase. -/
inductive Mode where
  | interactive
  | fileIoPipeline
  | stdinBatch
deriving DecidableEq, Repr

/-- Everything observable about one run of `main`: the exit status, the
diagnostics printed, which mode ran (`none` when execution never reached
mode selection), the shell state at mode entry, which trust-bridge
callbacks were registered, whether `db_connect` was called, and the
file-io filenames handed to `redirect_output`/`source` in order. -/
structure MainResult where
  result : Bool
  diags : List Diag
  mode : Option Mode := none
  entry : Option ShellState := none
  hostCb : Bool := false
  authCb : Bool := false
  connAttempted : Bool := false
  ioAttempts : List String := []
deriving Repr

/-- The dangling-redirect test at src/bin/neo4j-client.c lines 328–329:
the queue is non-empty and its last entry is not an input. -/
def endsWithRedirect (reqs : List file_io_request) : Bool :=
  match reqs.getLast? with
  | some r => !r.is_input
  | none => false

/-- The `for` loop of the file-io branch (lines 400–414): hand each
request to `redirect_output` or `source` in queue order, stopping at the
first failure.  Returns the filenames attempted in order and whether the
whole queue succeeded. -/
def runPipeline (env : Env) : List file_io_request → List String × Bool
  | [] => ([], true)
  | r :: rest =>
      let ok := if r.is_input then env.sourceOk r.filename
                else env.redirectOk r.filename
      if ok then
        let rec2 := runPipeline env rest
        (r.filename :: rec2.1, rec2.2)
      else ([r.filename], false)

/-- Lines 358–361 of `main`: when still interactive after parsing, force
the password prompt on. -/
def promptAdjusted (st : ShellState) : ShellState :=
  if st.interactive then { st with password_prompt := true } else st

/-- Lines 380–384 of `main`: remove any password from the config before
any execution mode runs. -/
def passwordCleared (st : ShellState) : ShellState :=
  { st with config := { st.config with password := none } }

/-- Lines 386–425 of `main`: the three-way mode dispatch on the shell
state `st2` as it stands after the connection phase.  Each branch fixes
its render strategy and (for Interactive and StdinBatch) its input name
and source depth, then runs the mode. -/
def dispatchMode (env : Env) (st2 : ShellState)
    (reqs : List file_io_request) (diags : List Diag)
    (hostCb authCb connAttempted : Bool) : MainResult :=
  if st2.interactive then
    let entry := { st2 with
      render := some RenderKind.table
      render_flags_show_nulls := true
      infile := some "<interactive>"
      source_depth := 1 }
    { result := env.interactOk, diags := diags,
      mode := some Mode.interactive, entry := some entry,
      hostCb := hostCb, authCb := authCb,
      connAttempted := connAttempted, ioAttempts := [] }
  else if reqs.isEmpty = false then
    let entry := { st2 with render := some RenderKind.csv }
    let run := runPipeline env reqs
    { result := run.2, diags := diags,
      mode := some Mode.fileIoPipeline, entry := some entry,
      hostCb := hostCb, authCb := authCb,
      connAttempted := connAttempted, ioAttempts := run.1 }
  else
    let entry := { st2 with
      render := some RenderKind.csv
      infile := some "<stdin>"
      source_depth := 1 }
    { result := env.batchOk, diags := diags,
      mode := some Mode.stdinBatch, entry := some entry,
      hostCb := hostCb, authCb := authCb,
      connAttempted := connAttempted, ioAttempts := [] }

/-- `main` from the end of the option loop to the end of mode execution
(src/bin/neo4j-client.c lines 328–427): dangling-redirect check, at most
one positional argument, logger setup, forcing the password prompt when
interactive, trust-bridge callback registration, connection, clearing the
password from the config, then the three-way mode dispatch. -/
def afterParse (env : Env) (ls : LoopState) (npos : Nat) : MainResult :=
  if endsWithRedirect ls.reqs then
    { result := false, diags := ls.diags ++ [Diag.danglingOutput] }
  else if npos > 1 then
    { result := false, diags := ls.diags ++ [Diag.usageErr] }
  else
    let st1 := promptAdjusted ls.state
    let hostCb := ls.tty
    let authCb := ls.tty && st1.password_prompt
    if npos ≥ 1 ∧ env.connectOk = false then
      { result := false, diags := ls.diags ++ [Diag.connectError],
        hostCb := hostCb, authCb := authCb, connAttempted := true }
    else
      dispatchMode env (passwordCleared st1) ls.reqs ls.diags
        hostCb authCb (decide (npos ≥ 1))

/-- The whole of `main` after tty/histfile setup, on an already-tokenized
option stream (`opts`) and `npos` remaining positional arguments. -/
def main_run (env : Env) (opts : List Opt) (npos : Nat) : MainResult :=
  match runParse (initState env) opts with
  | ParseResult.earlyExit ok ds => { result := ok, diags := ds }
  | ParseResult.parsed ls => afterParse env ls npos

/-! Spec-side views of an option stream, used to state the claims. -/

/-- Is this option a `-i`/`--source`? -/
def isSourceOpt : Opt → Bool
  | Opt.sourceOpt _ => true
  | _ => false

/-- Is this option a `-o`/`--output`? -/
def isOutputOpt : Opt → Bool
  | Opt.output _ => true
  | _ => false

/-- Is this option `--non-interactive`? -/
def isNonInteractiveOpt : Opt → Bool
  | Opt.nonInteractive => true
  | _ => false

/-- The file-io request an option queues, if any. -/
def optRequest : Opt → Option file_io_request
  | Opt.sourceOpt a => some { filename := a, is_input := true }
  | Opt.output a => some { filename := a, is_input := false }
  | _ => none

/-- The ordered sequence of `-i`/`-o` requests in an option stream. -/
def ioList (opts : List Opt) : List file_io_request :=
  opts.filterMap optRequest

/-- Options that assign the error-colorization field. -/
def setsColorize : Opt → Bool
  | Opt.colorize => true
  | Opt.noColorize => true
  | _ => false

/-- The colorization value such an option assigns. -/
def colorizeValOf : Opt → ErrorColorization
  | Opt.noColorize => ErrorColorization.noColor
  | _ => ErrorColorization.ansi

/-- Options that assign the history-file field. -/
def setsHistfile : Opt → Bool
  | Opt.histfileOpt _ => true
  | Opt.nohist => true
  | _ => false

/-- The history-file value such an option assigns. -/
def histfileValOf : Opt → Option String
  | Opt.histfileOpt a => if a ≠ "" then some a else none
  | _ => none

/-- A concrete environment: stdin is a terminal, `/dev/tty` opens, and
every external collaborator succeeds. -/
def envAllTTY : Env :=
  { stdinIsTTY := true
    stderrIsTTY := false
    ttyOpens := true
    connectOk := true
    interactOk := true
    batchOk := true
    redirectOk := fun _ => true
    sourceOk := fun _ => true }

/-- A concrete environment with no terminal anywhere: stdin is a pipe and
`/dev/tty` does not exist. -/
def envNoTty : Env :=
  { envAllTTY with stdinIsTTY := false, ttyOpens := false }

/-! Lemmas about the option loop. -/

theorem runParse_append (ls : LoopState) (xs ys : List Opt) :
    runParse ls (xs ++ ys) =
      match runParse ls xs with
      | ParseResult.earlyExit ok ds => ParseResult.earlyExit ok ds
      | ParseResult.parsed ls2 => runParse ls2 ys := by
  induction xs generalizing ls with
  | nil => simp [runParse]
  | cons o rest ih =>
      simp only [List.cons_append, runParse]
      cases processOpt ls o <;> simp [ih]

/-- How a completed pass of the option loop transforms the flags the mode
selection later reads: `interactive` is cleared exactly by `-i` and
`--non-interactive`, the tty handle is closed exactly by
`--non-interactive`, the request queue gains exactly the `-i`/`-o`
requests in order, and no diagnostics are printed. -/
theorem runParse_parsed_fields (opts : List Opt) :
    ∀ ls ls2 : LoopState, runParse ls opts = ParseResult.parsed ls2 →
      ls2.state.interactive
          = (ls.state.interactive && !opts.any isSourceOpt
              && !opts.any isNonInteractiveOpt)
        ∧ ls2.tty = (ls.tty && !opts.any isNonInteractiveOpt)
        ∧ ls2.reqs = ls.reqs ++ ioList opts
        ∧ ls2.diags = ls.diags := by
  induction opts with
  | nil =>
      intro ls ls2 h
      simp only [runParse, ParseResult.parsed.injEq] at h
      subst h
      simp [ioList]
  | cons o rest ih =>
      intro ls ls2 h
      rw [runParse] at h
      cases hstep : processOpt ls o with
      | exitSuccess ds => rw [hstep] at h; exact ParseResult.noConfusion h
      | exitFailure ds => rw [hstep] at h; exact ParseResult.noConfusion h
      | cont ls1 =>
          rw [hstep] at h
          obtain ⟨h1, h2, h3, h4⟩ := ih _ _ h
          cases o <;>
            simp only [processOpt] at hstep <;>
            (try split at hstep) <;>
            (try exact ParseStep.noConfusion hstep) <;>
            (injection hstep with he) <;>
            subst he <;>
            refine ⟨?_, ?_, ?_, ?_⟩ <;>
            simp_all [List.any_cons, isSourceOpt, isNonInteractiveOpt,
              ioList, optRequest]

/-- The guard before each store keeps the queue length within
`NEO4J_MAX_FILE_IO_ARGS` across the whole loop. -/
theorem runParse_reqs_le (opts : List Opt) :
    ∀ ls ls2 : LoopState, runParse ls opts = ParseResult.parsed ls2 →
      ls.reqs.length ≤ NEO4J_MAX_FILE_IO_ARGS →
      ls2.reqs.length ≤ NEO4J_MAX_FILE_IO_ARGS := by
  induction opts with
  | nil =>
      intro ls ls2 h hle
      simp only [runParse, ParseResult.parsed.injEq] at h
      subst h; exact hle
  | cons o rest ih =>
      intro ls ls2 h hle
      rw [runParse] at h
      cases hstep : processOpt ls o with
      | exitSuccess ds => rw [hstep] at h; exact ParseResult.noConfusion h
      | exitFailure ds => rw [hstep] at h; exact ParseResult.noConfusion h
      | cont ls1 =>
          rw [hstep] at h
          have hlen : ls1.reqs.length ≤ NEO4J_MAX_FILE_IO_ARGS := by
            clear h ih
            cases o <;>
              simp only [processOpt] at hstep <;>
              (try split at hstep) <;>
              (try exact ParseStep.noConfusion hstep) <;>
              (injection hstep with he) <;>
              subst he <;>
              first
                | exact hle
                | (simp only [List.length_append, List.length_cons,
                      List.length_nil, ge_iff_le, not_le,
                      NEO4J_MAX_FILE_IO_ARGS] at *
                   omega)
          exact ih _ _ h hlen

/-- If no option in the stream assigns the colorization field, a
completed pass of the loop leaves it unchanged. -/
theorem runParse_colorize_preserved (opts : List Opt) :
    ∀ ls ls2 : LoopState, runParse ls opts = ParseResult.parsed ls2 →
      (∀ o ∈ opts, setsColorize o = false) →
      ls2.state.error_colorize = ls.state.error_colorize := by
  induction opts with
  | nil =>
      intro ls ls2 h _
      simp only [runParse, ParseResult.parsed.injEq] at h
      subst h; rfl
  | cons o rest ih =>
      intro ls ls2 h hno
      rw [runParse] at h
      cases hstep : processOpt ls o with
      | exitSuccess ds => rw [hstep] at h; exact ParseResult.noConfusion h
      | exitFailure ds => rw [hstep] at h; exact ParseResult.noConfusion h
      | cont ls1 =>
          rw [hstep] at h
          have hrest : ∀ o2 ∈ rest, setsColorize o2 = false := by
            intro o2 hm; exact hno o2 (List.mem_cons_of_mem _ hm)
          have hhead := hno o (List.mem_cons_self _ _)
          have hcol : ls1.state.error_colorize = ls.state.error_colorize := by
            clear h ih
            cases o <;>
              simp only [processOpt] at hstep <;>
              (try split at hstep) <;>
              (try exact ParseStep.noConfusion hstep) <;>
              (injection hstep with he) <;>
              subst he <;>
              first
                | rfl
                | simp [setsColorize] at hhead
          rw [ih _ _ h hrest, hcol]

/-- If no option in the stream assigns the history-file field, a
completed pass of the loop leaves it unchanged. -/
theorem runParse_histfile_preserved (opts : List Opt) :
    ∀ ls ls2 : LoopState, runParse ls opts = ParseResult.parsed ls2 →
      (∀ o ∈ opts, setsHistfile o = false) →
      ls2.state.histfile = ls.state.histfile := by
  induction opts with
  | nil =>
      intro ls ls2 h _
      simp only [runParse, ParseResult.parsed.injEq] at h
      subst h; rfl
  | cons o rest ih =>
      intro ls ls2 h hno
      rw [runParse] at h
      cases hstep : processOpt ls o with
      | exitSuccess ds => rw [hstep] at h; exact ParseResult.noConfusion h
      | exitFailure ds => rw [hstep] at h; exact ParseResult.noConfusion h
      | cont ls1 =>
          rw [hstep] at h
          have hrest : ∀ o2 ∈ rest, setsHistfile o2 = false := by
            intro o2 hm; exact hno o2 (List.mem_cons_of_mem _ hm)
          have hhead := hno o (List.mem_cons_self _ _)
          have hhist : ls1.state.histfile = ls.state.histfile := by
            clear h ih
            cases o <;>
              simp only [processOpt] at hstep <;>
              (try split at hstep) <;>
              (try exact ParseStep.noConfusion hstep) <;>
              (injection hstep with he) <;>
              subst he <;>
              first
                | rfl
                | simp [setsHistfile] at hhead
          rw [ih _ _ h hrest, hhist]

/-- The `-i`/`-o` request list is empty exactly when the stream has no
`-i` and no `-o`. -/
theorem ioList_eq_nil_iff (opts : List Opt) :
    ioList opts = [] ↔
      (opts.any isSourceOpt = false ∧ opts.any isOutputOpt = false) := by
  induction opts with
  | nil => simp [ioList]
  | cons o rest ih =>
      cases o <;>
        simp_all [ioList, optRequest, isSourceOpt, isOutputOpt]

/-- Without any `-i`, every queued request is an output redirect. -/
theorem ioList_no_source (opts : List Opt) :
    opts.any isSourceOpt = false →
    ∀ r ∈ ioList opts, r.is_input = false := by
  induction opts with
  | nil => intro _ r hr; simp [ioList] at hr
  | cons o rest ih =>
      intro h r hr
      rw [List.any_cons, Bool.or_eq_false_iff] at h
      obtain ⟨h1, h2⟩ := h
      rw [ioList, List.filterMap_cons] at hr
      cases hopt : optRequest o with
      | none => rw [hopt] at hr; exact ih h2 r hr
      | some req =>
          rw [hopt] at hr
          rcases List.mem_cons.mp hr with hEq | hm
          · subst hEq
            cases o <;> simp only [optRequest] at hopt <;>
              first
                | exact Option.noConfusion hopt
                | (injection hopt with he; subst he; rfl)
                | simp [isSourceOpt] at h1
          · exact ih h2 r hm

/-- A non-empty list all of whose elements are output redirects ends with
a redirect. -/
theorem endsWithRedirect_of_all_output (reqs : List file_io_request)
    (hne : reqs ≠ []) (hall : ∀ r ∈ reqs, r.is_input = false) :
    endsWithRedirect reqs = true := by
  have hlast : reqs.getLast? = some (reqs.getLast hne) :=
    List.getLast?_eq_getLast reqs hne
  have hmem : reqs.getLast hne ∈ reqs := List.getLast_mem hne
  simp [endsWithRedirect, hlast, hall _ hmem]

theorem promptAdjusted_interactive (st : ShellState) :
    (promptAdjusted st).interactive = st.interactive := by
  unfold promptAdjusted; split <;> rfl

theorem passwordCleared_interactive (st : ShellState) :
    (passwordCleared st).interactive = st.interactive := rfl

theorem passwordCleared_password (st : ShellState) :
    (passwordCleared st).config.password = none := rfl

/-- A failing option aborts the loop right where it is seen: whatever
options follow, parsing exits with failure carrying exactly the
diagnostics printed so far. -/
theorem runParse_opt_failure (ls1 : LoopState) (pre post : List Opt)
    (o : Opt) (ls0 : LoopState) (ds : List Diag)
    (hp : runParse ls0 pre = ParseResult.parsed ls1)
    (ho : processOpt ls1 o = ParseStep.exitFailure ds) :
    runParse ls0 (pre ++ o :: post) = ParseResult.earlyExit false ds := by
  have h1 : runParse ls0 (pre ++ o :: post) = runParse ls1 (o :: post) := by
    rw [runParse_append, hp]
  rw [h1, runParse, ho]

/-- Same fact lifted to the whole of `main`: the run exits with failure,
no mode runs, no connection is attempted and no file is opened. -/
theorem main_run_opt_failure (env : Env) (pre post : List Opt) (o : Opt)
    (npos : Nat) (ls1 : LoopState) (ds : List Diag)
    (hp : runParse (initState env) pre = ParseResult.parsed ls1)
    (ho : processOpt ls1 o = ParseStep.exitFailure ds) :
    main_run env (pre ++ o :: post) npos =
      { result := false, diags := ds } := by
  unfold main_run
  rw [runParse_opt_failure ls1 pre post o (initState env) ds hp ho]

/-- The mode a dispatch runs, as a function of the state it receives. -/
theorem dispatchMode_mode (env : Env) (st2 : ShellState)
    (reqs : List file_io_request) (diags : List Diag)
    (hostCb authCb connAttempted : Bool) :
    (dispatchMode env st2 reqs diags hostCb authCb connAttempted).mode =
      some (if st2.interactive then Mode.interactive
        else if reqs.isEmpty = false then Mode.fileIoPipeline
        else Mode.stdinBatch) := by
  unfold dispatchMode
  split_ifs <;> rfl

/-- Every dispatch branch carries the config it received into the
recorded mode-entry state untouched; in particular its password. -/
theorem dispatchMode_entry_password (env : Env) (st2 : ShellState)
    (reqs : List file_io_request) (diags : List Diag)
    (hostCb authCb connAttempted : Bool) :
    Option.map (fun s => s.config.password)
      (dispatchMode env st2 reqs diags hostCb authCb connAttempted).entry =
      some st2.config.password := by
  unfold dispatchMode
  split_ifs <;> rfl

/-- The Interactive and StdinBatch branches set the source depth to 1 at
entry. -/
theorem dispatchMode_entry_depth (env : Env) (st2 : ShellState)
    (reqs : List file_io_request) (diags : List Diag)
    (hostCb authCb connAttempted : Bool)
    (hm : (dispatchMode env st2 reqs diags hostCb authCb
            connAttempted).mode = some Mode.interactive
      ∨ (dispatchMode env st2 reqs diags hostCb authCb
            connAttempted).mode = some Mode.stdinBatch) :
    Option.map (fun s => s.source_depth)
      (dispatchMode env st2 reqs diags hostCb authCb connAttempted).entry =
      some 1 := by
  unfold dispatchMode at hm ⊢
  split_ifs at hm ⊢ <;> simp_all

/-- If a run of `main` reaches mode dispatch, the option loop completed
and the three post-parse guards all passed; the result is exactly the
dispatch on the parsed state. -/
theorem main_run_mode_cases (env : Env) (opts : List Opt) (npos : Nat)
    (m : Mode) (hm : (main_run env opts npos).mode = some m) :
    ∃ ls, runParse (initState env) opts = ParseResult.parsed ls
      ∧ endsWithRedirect ls.reqs = false
      ∧ ¬ npos > 1
      ∧ ¬(npos ≥ 1 ∧ env.connectOk = false)
      ∧ main_run env opts npos =
          dispatchMode env (passwordCleared (promptAdjusted ls.state))
            ls.reqs ls.diags ls.tty
            (ls.tty && (promptAdjusted ls.state).password_prompt)
            (decide (npos ≥ 1)) := by
  cases hrun : runParse (initState env) opts with
  | earlyExit ok ds =>
      have hmr : main_run env opts npos = { result := ok, diags := ds } := by
        unfold main_run; rw [hrun]
      rw [hmr] at hm; simp at hm
  | parsed ls =>
      have hmr : main_run env opts npos = afterParse env ls npos := by
        unfold main_run; rw [hrun]
      rw [hmr] at hm
      unfold afterParse at hm
      by_cases h1 : endsWithRedirect ls.reqs = true
      · rw [if_pos h1] at hm; simp at hm
      · rw [if_neg h1] at hm
        by_cases h2 : npos > 1
        · rw [if_pos h2] at hm; simp at hm
        · rw [if_neg h2] at hm
          by_cases h3 : npos ≥ 1 ∧ env.connectOk = false
          · rw [if_pos h3] at hm; simp at hm
          · rw [if_neg h3] at hm
            refine ⟨ls, rfl, Bool.not_eq_true _ ▸ h1, h2, h3, ?_⟩
            rw [hmr]
            unfold afterParse
            rw [if_neg h1, if_neg h2, if_neg h3]

/-- Every dispatch branch records exactly the callback registrations it
was handed. -/
theorem dispatchMode_callbacks (env : Env) (st2 : ShellState)
    (reqs : List file_io_request) (diags : List Diag)
    (hostCb authCb connAttempted : Bool) :
    (dispatchMode env st2 reqs diags hostCb authCb connAttempted).hostCb
        = hostCb
    ∧ (dispatchMode env st2 reqs diags hostCb authCb connAttempted).authCb
        = authCb := by
  unfold dispatchMode
  split_ifs <;> exact ⟨rfl, rfl⟩

/-- Once the tty handle is closed, no branch of the post-parse phase
registers either trust-bridge callback. -/
theorem afterParse_callbacks_of_no_tty (env : Env) (ls : LoopState)
    (npos : Nat) (ht : ls.tty = false) :
    (afterParse env ls npos).hostCb = false
    ∧ (afterParse env ls npos).authCb = false := by
  unfold afterParse
  split_ifs
  · exact ⟨rfl, rfl⟩
  · exact ⟨rfl, rfl⟩
  · exact ⟨ht, by rw [ht]; rfl⟩
  · constructor
    · rw [(dispatchMode_callbacks _ _ _ _ _ _ _).1]; exact ht
    · rw [(dispatchMode_callbacks _ _ _ _ _ _ _).2, ht]; rfl

/-! The claims. -/

/-- C2: an argument vector whose `-i`/`-o` request sequence is non-empty
and ends with a `-o` (`is_input = false`) request is rejected after
parsing completes: `main` prints the dangling-output diagnostic and exits
with failure, with no mode run, no connection attempted and no file
handed to `redirect_output` or `source`. -/
theorem dangling_redirect_rejected (env : Env) (opts : List Opt)
    (npos : Nat) (ls : LoopState)
    (hp : runParse (initState env) opts = ParseResult.parsed ls)
    (hlast : Option.map (fun r => r.is_input) (ioList opts).getLast?
      = some false) :
    main_run env opts npos =
      { result := false, diags := [Diag.danglingOutput] } := by
  obtain ⟨_, _, h3, h4⟩ := runParse_parsed_fields opts _ _ hp
  have hreq : ls.reqs = ioList opts := by
    rw [h3]; rfl
  have hdiags : ls.diags = [] := h4
  have hend : endsWithRedirect ls.reqs = true := by
    rw [hreq]
    unfold endsWithRedirect
    cases hg : (ioList opts).getLast? with
    | none => rw [hg] at hlast; exact Option.noConfusion hlast
    | some r =>
        rw [hg] at hlast
        simp only [Option.map] at hlast
        injection hlast with hv
        show (!r.is_input) = true
        rw [hv]; rfl
  have hmr : main_run env opts npos = afterParse env ls npos := by
    unfold main_run; rw [hp]
  rw [hmr]
  unfold afterParse
  rw [if_pos hend, hdiags]
  rfl

/-- C3: a `--pipeline-max` argument with a positive atoi value `n` stores
`pipeline_max = n` and passes exactly `n * 2` to the connection layer as
the flow-control hint; a value that is 0 or negative fails at the point
the flag is seen, with a diagnostic, a failure exit and no connection
attempted. -/
theorem pipeline_max_semantics (env : Env) (pre post : List Opt)
    (npos : Nat) (a : String) (ls1 : LoopState)
    (hp : runParse (initState env) pre = ParseResult.parsed ls1) :
    (1 ≤ atoi a →
      runParse (initState env) (pre ++ [Opt.pipelineMax a]) =
        ParseResult.parsed
          { ls1 with state :=
            { ls1.state with
                pipeline_max := some (atoi a).toNat
                config := { ls1.state.config with
                  max_pipelined_requests := some ((atoi a).toNat * 2) } } })
    ∧ (atoi a < 1 →
      main_run env (pre ++ Opt.pipelineMax a :: post) npos =
        { result := false,
          diags := ls1.diags ++ [Diag.invalidPipelineMax a] }) := by
  constructor
  · intro hpos
    have h1 : runParse (initState env) (pre ++ [Opt.pipelineMax a])
        = runParse ls1 [Opt.pipelineMax a] := by
      rw [runParse_append, hp]
    rw [h1, runParse]
    have hno : ¬ atoi a < 1 := not_lt.mpr hpos
    simp only [processOpt, if_neg hno]
    rfl
  · intro hneg
    refine main_run_opt_failure env pre post _ npos ls1 _ hp ?_
    simp only [processOpt, if_pos hneg]

/-- C5: a `-P` parsed while no controlling-terminal handle is open prints
"Cannot prompt for a password without a tty" and exits with failure, with
no connection attempted and no mode run; with the handle open, `-P` is
never ignored: it sets the password-prompt flag. -/
theorem password_prompt_requires_tty (env : Env) (pre post : List Opt)
    (npos : Nat) (ls1 : LoopState)
    (hp : runParse (initState env) pre = ParseResult.parsed ls1) :
    (ls1.tty = false →
      main_run env (pre ++ Opt.promptPasswd :: post) npos =
        { result := false, diags := ls1.diags ++ [Diag.cannotPromptNoTty] })
    ∧ (ls1.tty = true →
      runParse (initState env) (pre ++ [Opt.promptPasswd]) =
        ParseResult.parsed
          { ls1 with state :=
            { ls1.state with password_prompt := true } }) := by
  constructor
  · intro ht
    refine main_run_opt_failure env pre post _ npos ls1 _ hp ?_
    simp only [processOpt, if_pos ht]
  · intro ht
    have h1 : runParse (initState env) (pre ++ [Opt.promptPasswd])
        = runParse ls1 [Opt.promptPasswd] := by
      rw [runParse_append, hp]
    have hne : ¬ ls1.tty = false := by simp [ht]
    rw [h1, runParse]
    simp only [processOpt, if_neg hne]
    rfl

/-- C6: the queue of accepted `-i`/`-o` requests never exceeds
`NEO4J_MAX_FILE_IO_ARGS` (the guard runs before each store), and the
request that would exceed the bound causes an immediate diagnostic and
failure exit with no mode run and no file opened. -/
theorem file_io_request_bound (env : Env) (opts pre post : List Opt)
    (npos : Nat) (a : String) (ls ls1 : LoopState) :
    (runParse (initState env) opts = ParseResult.parsed ls →
      ls.reqs.length ≤ NEO4J_MAX_FILE_IO_ARGS)
    ∧ (runParse (initState env) pre = ParseResult.parsed ls1 →
      NEO4J_MAX_FILE_IO_ARGS ≤ ls1.reqs.length →
      main_run env (pre ++ Opt.sourceOpt a :: post) npos =
        { result := false, diags := ls1.diags ++ [Diag.tooManyFileIoArgs] }
      ∧ main_run env (pre ++ Opt.output a :: post) npos =
        { result := false,
          diags := ls1.diags ++ [Diag.tooManyFileIoArgs] }) := by
  constructor
  · intro hrun
    exact runParse_reqs_le opts _ _ hrun (Nat.zero_le _)
  · intro hp hge
    constructor
    · refine main_run_opt_failure env pre post _ npos ls1 _ hp ?_
      simp only [processOpt]
      rw [if_pos hge]
    · refine main_run_opt_failure env pre post _ npos ls1 _ hp ?_
      simp only [processOpt]
      rw [if_pos hge]

/-- C7: whenever the Interactive or the StdinBatch mode is entered, the
shell state's source nesting depth at mode entry is exactly 1. -/
theorem source_depth_one_at_entry (env : Env) (opts : List Opt)
    (npos : Nat) (m : Mode)
    (hm : (main_run env opts npos).mode = some m)
    (hior : m = Mode.interactive ∨ m = Mode.stdinBatch) :
    Option.map (fun s => s.source_depth)
      (main_run env opts npos).entry = some 1 := by
  obtain ⟨ls, _, _, _, _, hmain⟩ := main_run_mode_cases env opts npos m hm
  rw [hmain] at hm ⊢
  rcases hior with h | h
  · subst h; exact dispatchMode_entry_depth env _ _ _ _ _ _ (Or.inl hm)
  · subst h; exact dispatchMode_entry_depth env _ _ _ _ _ _ (Or.inr hm)

/-- C9: on every invocation that reaches mode execution — whether or not
a target endpoint was given — the password in the connection config has
been cleared to null before the mode runs. -/
theorem password_cleared_before_mode (env : Env) (opts : List Opt)
    (npos : Nat) (m : Mode)
    (hm : (main_run env opts npos).mode = some m) :
    Option.map (fun s => s.config.password)
      (main_run env opts npos).entry = some none := by
  obtain ⟨ls, _, _, _, _, hmain⟩ := main_run_mode_cases env opts npos m hm
  rw [hmain, dispatchMode_entry_password]; rfl

/-- C1: whenever a run reaches mode execution, the mode that runs is
characterized exactly: Interactive iff stdin is a terminal, no `-i`/`-o`
request was queued and `--non-interactive` was not given; otherwise
FileIoPipeline iff the request queue is non-empty; otherwise StdinBatch.
The three characterizations are mutually exclusive and exhaustive.  (The
code only tests the `interactive` flag, which `-o` alone does not clear;
the queue-empty condition holds there only because a queue without any
`-i` necessarily ends in a redirect and is rejected beforehand.) -/
theorem mode_selection_trichotomy (env : Env) (opts : List Opt)
    (npos : Nat) (m : Mode)
    (hm : (main_run env opts npos).mode = some m) :
    ((m = Mode.interactive) ↔
      (env.stdinIsTTY = true ∧ ioList opts = []
        ∧ opts.any isNonInteractiveOpt = false))
    ∧ ((m = Mode.fileIoPipeline) ↔
      (¬(env.stdinIsTTY = true ∧ ioList opts = []
          ∧ opts.any isNonInteractiveOpt = false)
        ∧ ioList opts ≠ []))
    ∧ ((m = Mode.stdinBatch) ↔
      (¬(env.stdinIsTTY = true ∧ ioList opts = []
          ∧ opts.any isNonInteractiveOpt = false)
        ∧ ioList opts = [])) := by
  obtain ⟨ls, hrun, hend, _, _, hmain⟩ :=
    main_run_mode_cases env opts npos m hm
  obtain ⟨h1, _, h3, _⟩ := runParse_parsed_fields opts _ _ hrun
  have hreq : ls.reqs = ioList opts := by rw [h3]; rfl
  have hint : ls.state.interactive
      = (env.stdinIsTTY && !opts.any isSourceOpt
          && !opts.any isNonInteractiveOpt) := h1
  have hAiff : ls.state.interactive = true ↔
      (env.stdinIsTTY = true ∧ ioList opts = []
        ∧ opts.any isNonInteractiveOpt = false) := by
    constructor
    · intro htrue
      rw [hint] at htrue
      simp only [Bool.and_eq_true, Bool.not_eq_true'] at htrue
      obtain ⟨⟨hstdin, hsrc⟩, hnon⟩ := htrue
      refine ⟨hstdin, ?_, hnon⟩
      by_contra hioNe
      have hall := ioList_no_source opts hsrc
      have hends : endsWithRedirect (ioList opts) = true :=
        endsWithRedirect_of_all_output _ hioNe hall
      rw [hreq, hends] at hend
      exact Bool.noConfusion hend
    · rintro ⟨hstdin, hio, hnon⟩
      obtain ⟨hsrc, _⟩ := (ioList_eq_nil_iff opts).mp hio
      rw [hint, hstdin, hsrc, hnon]
      rfl
  rw [hmain, dispatchMode_mode] at hm
  rw [passwordCleared_interactive, promptAdjusted_interactive] at hm
  injection hm with hmv
  by_cases hi : ls.state.interactive = true
  · rw [if_pos hi] at hmv
    subst hmv
    have hA := hAiff.mp hi
    refine ⟨⟨fun _ => hA, fun _ => rfl⟩, ?_, ?_⟩
    · exact ⟨fun hc => Mode.noConfusion hc, fun hc => absurd hA hc.1⟩
    · exact ⟨fun hc => Mode.noConfusion hc, fun hc => absurd hA hc.1⟩
  · rw [if_neg hi] at hmv
    have hnA : ¬(env.stdinIsTTY = true ∧ ioList opts = []
        ∧ opts.any isNonInteractiveOpt = false) :=
      fun hA => hi (hAiff.mpr hA)
    by_cases hne : ls.reqs.isEmpty = false
    · rw [if_pos hne] at hmv
      subst hmv
      have hioNe : ioList opts ≠ [] := by
        rw [← hreq]
        intro hx
        rw [hx] at hne
        simp at hne
      refine ⟨?_, ⟨fun _ => ⟨hnA, hioNe⟩, fun _ => rfl⟩, ?_⟩
      · exact ⟨fun hc => Mode.noConfusion hc, fun hc => absurd hc.2.1 hioNe⟩
      · exact ⟨fun hc => Mode.noConfusion hc, fun hc => absurd hc.2 hioNe⟩
    · rw [if_neg hne] at hmv
      subst hmv
      have hreqNil : ls.reqs = [] := by
        cases hx : ls.reqs.isEmpty with
        | false => exact absurd hx hne
        | true => exact List.isEmpty_iff.mp hx
      have hio : ioList opts = [] := by rw [← hreq]; exact hreqNil
      refine ⟨?_, ?_, ⟨fun _ => ⟨hnA, hio⟩, fun _ => rfl⟩⟩
      · exact ⟨fun hc => Mode.noConfusion hc, fun hc => absurd hc hnA⟩
      · exact ⟨fun hc => Mode.noConfusion hc, fun hc => absurd hio hc.2⟩

/-- C4 counterexample: the claim says a non-numeric `--pipeline-max`
argument fails at parse time, but `5abc` is non-numeric and the code
accepts it: `atoi` reads the numeric prefix 5, no diagnostic is printed,
the run proceeds to a mode with `pipeline_max = 5` and a flow-control
hint of 10. -/
theorem numeric_option_counterexample :
    (main_run envNoTty [Opt.pipelineMax "5abc"] 0).diags = []
    ∧ (main_run envNoTty [Opt.pipelineMax "5abc"] 0).result = true
    ∧ (main_run envNoTty [Opt.pipelineMax "5abc"] 0).mode
        = some Mode.stdinBatch
    ∧ Option.map (fun s => s.pipeline_max)
        (main_run envNoTty [Opt.pipelineMax "5abc"] 0).entry
        = some (some 5)
    ∧ Option.map (fun s => s.config.max_pipelined_requests)
        (main_run envNoTty [Opt.pipelineMax "5abc"] 0).entry
        = some (some 10) := by
  refine ⟨rfl, rfl, rfl, rfl, rfl⟩

/-- C4 (amended): `--pipeline-max` and `--source-max-depth` arguments are
interpreted by C `atoi`: an argument whose atoi value is below 1 — in
particular any argument with no leading digits, and 0 or negative values
— fails immediately where the flag is seen, with a descriptive diagnostic
and failure exit; any argument whose atoi value is ≥ 1 is accepted with
that value, even if followed by non-numeric garbage. -/
theorem numeric_option_atoi_semantics (env : Env) (pre post : List Opt)
    (npos : Nat) (a : String) (ls1 : LoopState)
    (hp : runParse (initState env) pre = ParseResult.parsed ls1) :
    (atoi a < 1 →
      main_run env (pre ++ Opt.pipelineMax a :: post) npos =
        { result := false,
          diags := ls1.diags ++ [Diag.invalidPipelineMax a] }
      ∧ main_run env (pre ++ Opt.sourceMaxDepth a :: post) npos =
        { result := false,
          diags := ls1.diags ++ [Diag.invalidSourceMaxDepth a] })
    ∧ (1 ≤ atoi a →
      runParse (initState env) (pre ++ [Opt.sourceMaxDepth a]) =
        ParseResult.parsed
          { ls1 with state :=
            { ls1.state with
                source_max_depth := some (atoi a).toNat } }) := by
  constructor
  · intro hneg
    constructor
    · refine main_run_opt_failure env pre post _ npos ls1 _ hp ?_
      simp only [processOpt, if_pos hneg]
    · refine main_run_opt_failure env pre post _ npos ls1 _ hp ?_
      simp only [processOpt, if_pos hneg]
  · intro hpos
    have h1 : runParse (initState env) (pre ++ [Opt.sourceMaxDepth a])
        = runParse ls1 [Opt.sourceMaxDepth a] := by
      rw [runParse_append, hp]
    have hno : ¬ atoi a < 1 := not_lt.mpr hpos
    rw [h1, runParse]
    simp only [processOpt, if_neg hno]
    rfl

/-- C8: options that assign the same field of the shared state —
colorization (`--colorize`/`--no-colorize`) and history file
(`--history-file`/`--no-history`) — follow last-write-wins: after a
completed parse, the field equals the value assigned by the last such
occurrence alone, and earlier occurrences are silently overwritten
rather than causing an error. -/
theorem last_write_wins (env : Env) (pre post : List Opt) (o : Opt)
    (ls2 : LoopState)
    (h : runParse (initState env) (pre ++ o :: post)
      = ParseResult.parsed ls2) :
    (setsColorize o = true → (∀ o2 ∈ post, setsColorize o2 = false) →
      ls2.state.error_colorize = colorizeValOf o)
    ∧ (setsHistfile o = true → (∀ o2 ∈ post, setsHistfile o2 = false) →
      ls2.state.histfile = histfileValOf o) := by
  rw [runParse_append] at h
  cases hpre : runParse (initState env) pre with
  | earlyExit ok ds =>
      rw [hpre] at h
      exact ParseResult.noConfusion h
  | parsed ls1 =>
      rw [hpre] at h
      have h2 : runParse ls1 (o :: post) = ParseResult.parsed ls2 := h
      rw [runParse] at h2
      cases hstep : processOpt ls1 o with
      | exitSuccess ds =>
          rw [hstep] at h2
          exact ParseResult.noConfusion h2
      | exitFailure ds =>
          rw [hstep] at h2
          exact ParseResult.noConfusion h2
      | cont lsMid =>
          rw [hstep] at h2
          have h3 : runParse lsMid post = ParseResult.parsed ls2 := h2
          constructor
          · intro hsets hnone
            rw [runParse_colorize_preserved post _ _ h3 hnone]
            cases o <;> simp only [setsColorize] at hsets <;>
              first
                | exact Bool.noConfusion hsets
                | (simp only [processOpt] at hstep
                   injection hstep with he
                   subst he
                   rfl)
          · intro hsets hnone
            rw [runParse_histfile_preserved post _ _ h3 hnone]
            cases o <;> simp only [setsHistfile] at hsets <;>
              first
                | exact Bool.noConfusion hsets
                | (simp only [processOpt] at hstep
                   injection hstep with he
                   subst he
                   rfl)

/-- C10: `--non-interactive` closes the tty handle for the rest of the
run, so `-P` is order-sensitive: after `--non-interactive` it is a hard
failure with the no-tty diagnostic, while with the handle still open
(in particular before `--non-interactive`) it is accepted at parse time;
and with `--non-interactive` anywhere in the options neither the
unknown-host callback nor the authentication-reattempt callback is
registered, even when the controlling terminal exists. -/
theorem non_interactive_order_sensitivity (env : Env)
    (pre mid post opts : List Opt) (npos : Nat) (ls1 : LoopState) :
    (runParse (initState env) (pre ++ Opt.nonInteractive :: mid) =
        ParseResult.parsed ls1 →
      main_run env ((pre ++ Opt.nonInteractive :: mid)
          ++ Opt.promptPasswd :: post) npos =
        { result := false, diags := ls1.diags ++ [Diag.cannotPromptNoTty] })
    ∧ (∀ ls : LoopState, ls.tty = true →
      processOpt ls Opt.promptPasswd =
        ParseStep.cont { ls with state :=
          { ls.state with password_prompt := true } })
    ∧ (opts.any isNonInteractiveOpt = true →
      (main_run env opts npos).hostCb = false
      ∧ (main_run env opts npos).authCb = false) := by
  refine ⟨?_, ?_, ?_⟩
  · intro hp
    obtain ⟨_, h2, _, _⟩ := runParse_parsed_fields _ _ _ hp
    have hany : (pre ++ Opt.nonInteractive :: mid).any isNonInteractiveOpt
        = true := by
      simp [List.any_append, List.any_cons, isNonInteractiveOpt]
    have ht : ls1.tty = false := by
      rw [h2, hany]
      simp
    refine main_run_opt_failure env _ post _ npos ls1 _ hp ?_
    simp only [processOpt, if_pos ht]
  · intro ls ht
    have hne : ¬ ls.tty = false := by simp [ht]
    simp only [processOpt, if_neg hne]
  · intro hni
    cases hrun : runParse (initState env) opts with
    | earlyExit ok ds =>
        have hmr : main_run env opts npos
            = { result := ok, diags := ds } := by
          unfold main_run; rw [hrun]
        rw [hmr]
        exact ⟨rfl, rfl⟩
    | parsed ls =>
        have hmr : main_run env opts npos = afterParse env ls npos := by
          unfold main_run; rw [hrun]
        obtain ⟨_, h2, _, _⟩ := runParse_parsed_fields opts _ _ hrun
        have ht : ls.tty = false := by
          rw [h2, hni]
          simp
        rw [hmr]
        exact afterParse_callbacks_of_no_tty env ls npos ht

/-! Concrete witnesses. -/

/-- C1 witness: a terminal stdin with no options runs Interactive. -/
theorem mode_selection_trichotomy_witness :
    (main_run envAllTTY ([] : List Opt) 0).mode = some Mode.interactive
    ∧ ((Mode.interactive = Mode.interactive) ↔
        (envAllTTY.stdinIsTTY = true ∧ ioList ([] : List Opt) = []
          ∧ ([] : List Opt).any isNonInteractiveOpt = false)) :=
  ⟨rfl,
   (mode_selection_trichotomy envAllTTY [] 0 Mode.interactive rfl).1⟩

/-- C2 witness: `-o a.csv` alone is rejected with the dangling-output
diagnostic; no mode runs and no file is touched. -/
theorem dangling_redirect_rejected_witness :
    main_run envAllTTY [Opt.output "a.csv"] 0 =
      { result := false, diags := [Diag.danglingOutput] } :=
  dangling_redirect_rejected envAllTTY [Opt.output "a.csv"] 0
    { initState envAllTTY with
        reqs := [{ filename := "a.csv", is_input := false }] }
    (by decide) (by decide)

/-- C3 witness: `--pipeline-max 5` stores 5 and passes 10 to the
connection layer; `--pipeline-max 0` is rejected at parse time. -/
theorem pipeline_max_semantics_witness :
    runParse (initState envAllTTY) ([] ++ [Opt.pipelineMax "5"]) =
      ParseResult.parsed
        { initState envAllTTY with state :=
          { (initState envAllTTY).state with
              pipeline_max := some 5
              config := { (initState envAllTTY).state.config with
                max_pipelined_requests := some 10 } } }
    ∧ main_run envAllTTY ([] ++ Opt.pipelineMax "0" :: []) 0 =
      { result := false, diags := [Diag.invalidPipelineMax "0"] } :=
  ⟨(pipeline_max_semantics envAllTTY [] [] 0 "5"
      (initState envAllTTY) rfl).1 (by decide),
   (pipeline_max_semantics envAllTTY [] [] 0 "0"
      (initState envAllTTY) rfl).2 (by decide)⟩

/-- C4 witness for the amended claim: `--pipeline-max abc` (atoi 0) fails
immediately; `--source-max-depth 3x` (atoi 3) is accepted with value 3. -/
theorem numeric_option_atoi_semantics_witness :
    main_run envAllTTY ([] ++ Opt.pipelineMax "abc" :: []) 0 =
      { result := false, diags := [Diag.invalidPipelineMax "abc"] }
    ∧ runParse (initState envAllTTY) ([] ++ [Opt.sourceMaxDepth "3x"]) =
      ParseResult.parsed
        { initState envAllTTY with state :=
          { (initState envAllTTY).state with
              source_max_depth := some 3 } } :=
  ⟨((numeric_option_atoi_semantics envAllTTY [] [] 0 "abc"
      (initState envAllTTY) rfl).1 (by decide)).1,
   (numeric_option_atoi_semantics envAllTTY [] [] 0 "3x"
      (initState envAllTTY) rfl).2 (by decide)⟩

/-- C5 witness: `-P` with no tty anywhere fails with the diagnostic and
no connection attempt; `-P` with the tty open sets the prompt flag. -/
theorem password_prompt_requires_tty_witness :
    main_run envNoTty ([] ++ Opt.promptPasswd :: []) 0 =
      { result := false, diags := [Diag.cannotPromptNoTty] }
    ∧ runParse (initState envAllTTY) ([] ++ [Opt.promptPasswd]) =
      ParseResult.parsed
        { initState envAllTTY with state :=
          { (initState envAllTTY).state with password_prompt := true } } :=
  ⟨(password_prompt_requires_tty envNoTty [] [] 0
      (initState envNoTty) rfl).1 rfl,
   (password_prompt_requires_tty envAllTTY [] [] 0
      (initState envAllTTY) rfl).2 rfl⟩

set_option maxRecDepth 8000 in
/-- C6 witness: after 128 accepted `-o` requests, a further `-i` is
rejected with the too-many diagnostic and no mode runs. -/
theorem file_io_request_bound_witness :
    main_run envNoTty
        (List.replicate NEO4J_MAX_FILE_IO_ARGS (Opt.output "o")
          ++ Opt.sourceOpt "s" :: []) 0 =
      { result := false, diags := [Diag.tooManyFileIoArgs] } :=
  ((file_io_request_bound envNoTty []
      (List.replicate NEO4J_MAX_FILE_IO_ARGS (Opt.output "o")) [] 0 "s"
      (initState envNoTty)
      { initState envNoTty with
          reqs := List.replicate NEO4J_MAX_FILE_IO_ARGS
            { filename := "o", is_input := false } }).2
    (by decide) (by decide)).1

/-- C7 witness: a batch run on a non-terminal stdin enters its mode with
source depth 1. -/
theorem source_depth_one_at_entry_witness :
    Option.map (fun s => s.source_depth)
      (main_run envNoTty ([] : List Opt) 0).entry = some 1 :=
  source_depth_one_at_entry envNoTty [] 0 Mode.stdinBatch (by decide)
    (Or.inr rfl)

/-- C8 witness: `--colorize --no-colorize` parses to the state whose
colorization is the one assigned by the last occurrence alone. -/
theorem last_write_wins_witness :
    runParse (initState envAllTTY) ([Opt.colorize] ++ Opt.noColorize :: [])
      = ParseResult.parsed
        { initState envAllTTY with state :=
          { (initState envAllTTY).state with
              error_colorize := ErrorColorization.noColor } }
    ∧ ({ initState envAllTTY with state :=
          { (initState envAllTTY).state with
              error_colorize := ErrorColorization.noColor } }
        : LoopState).state.error_colorize = colorizeValOf Opt.noColorize :=
  ⟨by decide,
   (last_write_wins envAllTTY [Opt.colorize] [] Opt.noColorize
      { initState envAllTTY with state :=
        { (initState envAllTTY).state with
            error_colorize := ErrorColorization.noColor } }
      (by decide)).1 rfl (fun o2 ho2 => absurd ho2 (List.not_mem_nil o2))⟩

/-- C9 witness: with `-p secret` and a target endpoint, the state at mode
entry carries no password. -/
theorem password_cleared_before_mode_witness :
    Option.map (fun s => s.config.password)
      (main_run envAllTTY [Opt.password "secret"] 1).entry = some none :=
  password_cleared_before_mode envAllTTY [Opt.password "secret"] 1
    Mode.interactive (by decide)

/-- C10 witness: `--non-interactive -P` fails with the no-tty diagnostic
even though `/dev/tty` opened, and `--non-interactive` alone suppresses
the unknown-host callback. -/
theorem non_interactive_order_sensitivity_witness :
    main_run envAllTTY
        (([] ++ Opt.nonInteractive :: []) ++ Opt.promptPasswd :: []) 0 =
      { result := false, diags := [Diag.cannotPromptNoTty] }
    ∧ (main_run envAllTTY [Opt.nonInteractive] 0).hostCb = false :=
  ⟨(non_interactive_order_sensitivity envAllTTY [] [] []
      [Opt.nonInteractive] 0
      { initState envAllTTY with
          state := { (initState envAllTTY).state with interactive := false }
          tty := false }).1 (by decide),
   ((non_interactive_order_sensitivity envAllTTY [] [] []
      [Opt.nonInteractive] 0
      { initState envAllTTY with
          state := { (initState envAllTTY).state with interactive := false }
          tty := false }).2.2 rfl).1⟩

end Neo4jClient
